import Mathlib

/-
  Verification of the page-split cutter-line adaptation core
  (PageLayoutAdapter: adaptCutter, adaptCutters, correctPageLayoutType,
  adaptPageLayout).

  The geometry is embedded over the rationals.  The Qt geometry
  primitives used by the source (QPointF, QLineF, QRectF and the
  QLineF intersection routine) are embedded with their documented
  exact semantics: the intersection routine computes the crossing of
  the two infinite extensions, reporting NoIntersection exactly when
  the denominator (a cross product of the direction vectors) is zero,
  and otherwise reporting Bounded or Unbounded together with the
  crossing point.  QRectF stores x, y, w, h; QRectF.isValid means
  w > 0 and h > 0.  QRectF.toRect rounds x, y, w, h each to the
  nearest integer (qRound, ties away from zero), and QLineF.toLine
  rounds both endpoints.
-/

namespace PageSplit

set_option maxRecDepth 8000

/-- A point with exact rational coordinates (QPointF). -/
structure Point where
  x : ℚ
  y : ℚ
deriving DecidableEq, Repr

instance : Inhabited Point := ⟨⟨0, 0⟩⟩

/-- A line segment given by its two endpoints (QLineF). -/
structure Line where
  p1 : Point
  p2 : Point
deriving DecidableEq, Repr

instance : Inhabited Line := ⟨⟨default, default⟩⟩

/-- QLineF.isNull: both endpoints coincide (exact form of the fuzzy test). -/
def Line.isNull (l : Line) : Prop := l.p1 = l.p2

instance (l : Line) : Decidable l.isNull := by unfold Line.isNull; infer_instance

/-- QLineF.setP1. -/
def Line.setP1 (l : Line) (p : Point) : Line := ⟨p, l.p2⟩

/-- QLineF.setP2. -/
def Line.setP2 (l : Line) (p : Point) : Line := ⟨l.p1, p⟩

/-- QLineF.pointAt: linear interpolation along the segment. -/
def Line.pointAt (l : Line) (t : ℚ) : Point :=
  ⟨l.p1.x + (l.p2.x - l.p1.x) * t, l.p1.y + (l.p2.y - l.p1.y) * t⟩

/-- Result classification of the QLineF intersection routine. -/
inductive IntersectType where
  | NoIntersection
  | BoundedIntersection
  | UnboundedIntersection
deriving DecidableEq, Repr

/-- The denominator of the QLineF intersection routine: with
a = l1.p2 - l1.p1, b = l2.p1 - l2.p2, this is a.y * b.x - a.x * b.y. -/
def intersectDenominator (l1 l2 : Line) : ℚ :=
  (l1.p2.y - l1.p1.y) * (l2.p1.x - l2.p2.x) - (l1.p2.x - l1.p1.x) * (l2.p1.y - l2.p2.y)

/-- The parameter na of the intersection routine: with c = l1.p1 - l2.p1,
this is (b.y * c.x - b.x * c.y) / denominator. -/
def intersectNa (l1 l2 : Line) : ℚ :=
  ((l2.p1.y - l2.p2.y) * (l1.p1.x - l2.p1.x) - (l2.p1.x - l2.p2.x) * (l1.p1.y - l2.p1.y))
    / intersectDenominator l1 l2

/-- The parameter nb of the intersection routine:
(a.x * c.y - a.y * c.x) / denominator. -/
def intersectNb (l1 l2 : Line) : ℚ :=
  ((l1.p2.x - l1.p1.x) * (l1.p1.y - l2.p1.y) - (l1.p2.y - l1.p1.y) * (l1.p1.x - l2.p1.x))
    / intersectDenominator l1 l2

/-- The crossing point of the two infinite extensions: l1.p1 + a * na. -/
def intersectPoint (l1 l2 : Line) : Point :=
  ⟨l1.p1.x + (l1.p2.x - l1.p1.x) * intersectNa l1 l2,
   l1.p1.y + (l1.p2.y - l1.p1.y) * intersectNa l1 l2⟩

/-- QLineF.intersects: crossing of the two infinite extensions.
NoIntersection exactly when the denominator vanishes (parallel,
collinear or degenerate input); otherwise the crossing point is
reported, Bounded when it falls within both segments.  The second
component is meaningful whenever the first is not NoIntersection (the
source never reads it otherwise). -/
def Line.intersects (l1 l2 : Line) : IntersectType × Point :=
  if intersectDenominator l1 l2 = 0 then (IntersectType.NoIntersection, ⟨0, 0⟩)
  else if intersectNa l1 l2 < 0 ∨ intersectNa l1 l2 > 1 then
    (IntersectType.UnboundedIntersection, intersectPoint l1 l2)
  else if intersectNb l1 l2 < 0 ∨ intersectNb l1 l2 > 1 then
    (IntersectType.UnboundedIntersection, intersectPoint l1 l2)
  else (IntersectType.BoundedIntersection, intersectPoint l1 l2)

/-- An axis-aligned rectangle stored as x, y, w, h (QRectF). -/
structure Rect where
  x : ℚ
  y : ℚ
  w : ℚ
  h : ℚ
deriving DecidableEq, Repr

def Rect.left (r : Rect) : ℚ := r.x
def Rect.top (r : Rect) : ℚ := r.y
def Rect.right (r : Rect) : ℚ := r.x + r.w
def Rect.bottom (r : Rect) : ℚ := r.y + r.h

def Rect.topLeft (r : Rect) : Point := ⟨r.left, r.top⟩
def Rect.topRight (r : Rect) : Point := ⟨r.right, r.top⟩
def Rect.bottomLeft (r : Rect) : Point := ⟨r.left, r.bottom⟩
def Rect.bottomRight (r : Rect) : Point := ⟨r.right, r.bottom⟩

/-- QRectF.isValid: strictly positive width and height. -/
def Rect.isValid (r : Rect) : Prop := 0 < r.w ∧ 0 < r.h

instance (r : Rect) : Decidable r.isValid := by unfold Rect.isValid; infer_instance

/-- qRound: round to the nearest integer, ties away from zero. -/
def qRound (d : ℚ) : ℤ :=
  if 0 ≤ d then (d + 1/2).floor else (d - 1/2).ceil

/-- QPointF.toPoint: round both coordinates. -/
def Point.toPoint (p : Point) : Point := ⟨(qRound p.x : ℚ), (qRound p.y : ℚ)⟩

/-- QLineF.toLine: round both endpoints. -/
def Line.toLine (l : Line) : Line := ⟨l.p1.toPoint, l.p2.toPoint⟩

/-- QRectF.toRect: round x, y, w, h each to the nearest integer. -/
def Rect.toRect (r : Rect) : Rect :=
  ⟨(qRound r.x : ℚ), (qRound r.y : ℚ), (qRound r.w : ℚ), (qRound r.h : ℚ)⟩

/-- The top border segment of a rectangle, from topLeft to topRight. -/
def upperBorder (r : Rect) : Line := ⟨r.topLeft, r.topRight⟩

/-- The bottom border segment, from bottomLeft to bottomRight. -/
def lowerBorder (r : Rect) : Line := ⟨r.bottomLeft, r.bottomRight⟩

/-- Clamp the x coordinate of a point into the given bounds, as the two
clamping blocks of adaptCutter do. -/
def clampXInto (p : Point) (left right : ℚ) : Point :=
  if p.x < left then ⟨left, p.y⟩
  else if p.x > right then ⟨right, p.y⟩
  else p

/-- PageLayoutAdapter.adaptCutter: project a cutter line onto the top and
bottom borders of the new rectangle, clamping each intersection into the
horizontal extent, falling back to the input on any failure. -/
def adaptCutter (cutterLine : Line) (newRect : Rect) : Line :=
  if ¬ newRect.isValid ∨ cutterLine.isNull then cutterLine
  else
    let upper := (upperBorder newRect).intersects cutterLine
    if upper.1 = IntersectType.NoIntersection then cutterLine
    else
      let upperIntersection := clampXInto upper.2 newRect.left newRect.right
      let lower := (lowerBorder newRect).intersects cutterLine
      if lower.1 = IntersectType.NoIntersection then cutterLine
      else
        let lowerIntersection := clampXInto lower.2 newRect.left newRect.right
        ⟨upperIntersection, lowerIntersection⟩

/-- The sorting pass of adaptCutters: std::sort with the comparator
comparing the x coordinates of the first endpoints.  Modelled by a
stable sort; std::sort leaves the relative order of equal keys
unspecified. -/
def sortLines (lines : List Line) : List Line :=
  List.insertionSort (fun a b => a.p1.x ≤ b.p1.x) lines

/-- The conflict-fixing loop of adaptCutters.  The first argument pair
carries the bounds (upperBound, lowerBound); prev is the element at
index i - 1 (already reflecting earlier replacements) and the list
holds the elements from index i on. -/
def resolveConflicts (upperBound lowerBound : ℚ) : Line → List Line → List Line
  | prev, [] => [prev]
  | prev, cur :: rest =>
    let r := prev.intersects cur
    if r.1 = IntersectType.NoIntersection then
      prev :: resolveConflicts upperBound lowerBound cur rest
    else if r.2.y < lowerBound ∧ r.2.y > upperBound then
      if lowerBound - r.2.y ≤ (lowerBound - upperBound) / 2 then
        let newP : Point := ⟨r.2.x, lowerBound⟩
        (prev.setP2 newP) :: resolveConflicts upperBound lowerBound (cur.setP2 newP) rest
      else
        let newP : Point := ⟨r.2.x, upperBound⟩
        (prev.setP1 newP) :: resolveConflicts upperBound lowerBound (cur.setP1 newP) rest
    else
      prev :: resolveConflicts upperBound lowerBound cur rest

/-- PageLayoutAdapter.adaptCutters: project every line via adaptCutter,
sort by the x coordinate of the first endpoint, then fix interior
crossings between adjacent lines. -/
def adaptCutters (cuttersList : List Line) (newRect : Rect) : List Line :=
  let adapted := cuttersList.map (fun cutter => adaptCutter cutter newRect)
  match sortLines adapted with
  | [] => []
  | c :: cs => resolveConflicts newRect.top newRect.bottom c cs

/-- An interior crossing with respect to vertical bounds: the pair
intersects and the crossing y is strictly between the bounds, exactly
the condition the conflict-fixing loop acts on. -/
def interiorCrossingY (upperBound lowerBound : ℚ) (a b : Line) : Prop :=
  (a.intersects b).1 ≠ IntersectType.NoIntersection ∧
  ((a.intersects b).2.y < lowerBound ∧ (a.intersects b).2.y > upperBound)

/-- An interior crossing inside the vertical span of a rectangle. -/
def interiorCrossing (rect : Rect) (a b : Line) : Prop :=
  interiorCrossingY rect.top rect.bottom a b

/-- Re-testing a pair yields no intersection, or a crossing on the top
or bottom bound of the rectangle. -/
def borderOrNoIntersection (rect : Rect) (a b : Line) : Prop :=
  (a.intersects b).1 = IntersectType.NoIntersection ∨
  (a.intersects b).2.y = rect.top ∨ (a.intersects b).2.y = rect.bottom

instance (ub lb : ℚ) (a b : Line) : Decidable (interiorCrossingY ub lb a b) := by
  unfold interiorCrossingY; infer_instance

instance (rect : Rect) (a b : Line) : Decidable (interiorCrossing rect a b) := by
  unfold interiorCrossing; infer_instance

instance (rect : Rect) (a b : Line) : Decidable (borderOrNoIntersection rect a b) := by
  unfold borderOrNoIntersection; infer_instance

/-- A cutter line is vertical and sits on the left or right bound, the
edge test of correctPageLayoutType. -/
def cutterOnEdge (outline : Rect) (c : Line) : Prop :=
  c.p1.x = c.p2.x ∧ (c.p1.x = outline.left ∨ c.p1.x = outline.right)

/-- The degenerate two-cutter test of correctPageLayoutType: interior
intersection, or no intersection with coinciding first endpoints. -/
def cuttersDegenerate (outline : Rect) (c1 c2 : Line) : Prop :=
  ((c1.intersects c2).1 ≠ IntersectType.NoIntersection
    ∧ ((c1.intersects c2).2.y > outline.top ∧ (c1.intersects c2).2.y < outline.bottom))
  ∨ ((c1.intersects c2).1 = IntersectType.NoIntersection
    ∧ c1.pointAt 0 = c2.pointAt 0)

instance (outline : Rect) (c : Line) : Decidable (cutterOnEdge outline c) := by
  unfold cutterOnEdge; infer_instance

instance (outline : Rect) (c1 c2 : Line) : Decidable (cuttersDegenerate outline c1 c2) := by
  unfold cuttersDegenerate; infer_instance

/-- The page classification (PageLayout enum). -/
inductive LayoutType where
  | SINGLE_PAGE_UNCUT
  | SINGLE_PAGE_CUT
  | TWO_PAGES
deriving DecidableEq, Repr

/-- Modelled from the spec: the Page Layout aggregate of section 3 of the
spec (the PageLayout class itself is not part of the sources here, only
its callers are).  It carries the outline rectangle, the classification
and the cutter lines; uncutOutline().boundingRect() of the source is the
outline field. -/
structure PageLayout where
  outline : Rect
  type : LayoutType
  cutterLines : List Line
deriving DecidableEq, Repr

instance : Inhabited PageLayout := ⟨⟨⟨0, 0, 0, 0⟩, LayoutType.SINGLE_PAGE_UNCUT, []⟩⟩

/-- Modelled from the spec: cutterLine accessor of the PageLayout class. -/
def PageLayout.cutterLine (L : PageLayout) (i : Nat) : Line :=
  L.cutterLines.getD i default

/-- Modelled from the spec: setType mutates the classification in place,
leaving the outline and the cutter lines untouched. -/
def PageLayout.setType (L : PageLayout) (t : LayoutType) : PageLayout :=
  { L with type := t }

/-- Modelled from the spec: the (outline) constructor, zero cutter lines. -/
def PageLayout.uncut (outline : Rect) : PageLayout :=
  ⟨outline, LayoutType.SINGLE_PAGE_UNCUT, []⟩

/-- Modelled from the spec: the (outline, two lines) constructor. -/
def PageLayout.cutPage (outline : Rect) (c1 c2 : Line) : PageLayout :=
  ⟨outline, LayoutType.SINGLE_PAGE_CUT, [c1, c2]⟩

/-- Modelled from the spec: the (outline, one line) constructor. -/
def PageLayout.twoPages (outline : Rect) (c : Line) : PageLayout :=
  ⟨outline, LayoutType.TWO_PAGES, [c]⟩

/-- PageLayoutAdapter.correctPageLayoutType: degrade degenerate cut
configurations to SINGLE_PAGE_UNCUT.  All comparisons run on the
integer-rounded copies of the outline and of the cutter lines, exactly
as the source obtains them via toRect and toLine. -/
def correctPageLayoutType (layout : PageLayout) : PageLayout :=
  let outline := layout.outline.toRect
  let layout1 :=
    if layout.type = LayoutType.SINGLE_PAGE_CUT then
      let cutterLine1 := (layout.cutterLine 0).toLine
      let cutterLine2 := (layout.cutterLine 1).toLine
      let layoutA :=
        if cutterOnEdge outline cutterLine1 ∧ cutterOnEdge outline cutterLine2 then
          layout.setType LayoutType.SINGLE_PAGE_UNCUT
        else layout
      if cuttersDegenerate outline cutterLine1 cutterLine2 then
        layoutA.setType LayoutType.SINGLE_PAGE_UNCUT
      else layoutA
    else layout
  if layout1.type = LayoutType.TWO_PAGES then
    let cutterLine1 := (layout1.cutterLine 0).toLine
    if cutterOnEdge outline cutterLine1 then
      layout1.setType LayoutType.SINGLE_PAGE_UNCUT
    else layout1
  else layout1

/-- PageLayoutAdapter.adaptPageLayout: refit a layout to a new outline
and re-validate its classification. -/
def adaptPageLayout (pageLayout : PageLayout) (outline : Rect) : PageLayout :=
  if pageLayout.outline = outline then pageLayout
  else if pageLayout.type = LayoutType.SINGLE_PAGE_CUT then
    let adaptedCutters := adaptCutters [pageLayout.cutterLine 0, pageLayout.cutterLine 1] outline
    correctPageLayoutType
      (PageLayout.cutPage outline (adaptedCutters.getD 0 default) (adaptedCutters.getD 1 default))
  else if pageLayout.type = LayoutType.TWO_PAGES then
    let adaptedCutter := adaptCutter (pageLayout.cutterLine 0) outline
    correctPageLayoutType (PageLayout.twoPages outline adaptedCutter)
  else
    PageLayout.uncut outline

/-- The type decision of correctPageLayoutType, as a function of the
classification and of the rounded geometry the source compares. -/
def correctedType (t : LayoutType) (outline : Rect) (c1 c2 : Line) : LayoutType :=
  let t1 :=
    if t = LayoutType.SINGLE_PAGE_CUT then
      if (cutterOnEdge outline c1 ∧ cutterOnEdge outline c2) ∨ cuttersDegenerate outline c1 c2 then
        LayoutType.SINGLE_PAGE_UNCUT
      else t
    else t
  if t1 = LayoutType.TWO_PAGES then
    if cutterOnEdge outline c1 then LayoutType.SINGLE_PAGE_UNCUT else t1
  else t1

/-- Sorting a two-element list by the x coordinate of the first
endpoints, the shape adaptCutters meets on a two-cutter layout. -/
def sortPair (a b : Line) : Line × Line :=
  if a.p1.x ≤ b.p1.x then (a, b) else (b, a)

/-- The first line of the sorted pair of projections of two lines. -/
def sortedProj1 (l1 l2 : Line) (rect : Rect) : Line :=
  (sortPair (adaptCutter l1 rect) (adaptCutter l2 rect)).1

/-- The second line of the sorted pair of projections of two lines. -/
def sortedProj2 (l1 l2 : Line) (rect : Rect) : Line :=
  (sortPair (adaptCutter l1 rect) (adaptCutter l2 rect)).2

instance : IsTotal Line (fun a b => a.p1.x ≤ b.p1.x) :=
  ⟨fun a b => le_total a.p1.x b.p1.x⟩

instance : IsTrans Line (fun a b => a.p1.x ≤ b.p1.x) :=
  ⟨fun _ _ _ hab hbc => le_trans hab hbc⟩

/-- Helper: the intersection test reports NoIntersection exactly when
the denominator vanishes. -/
lemma intersects_fst_no_iff (l1 l2 : Line) :
    (l1.intersects l2).1 = IntersectType.NoIntersection ↔ intersectDenominator l1 l2 = 0 := by
  unfold Line.intersects
  split_ifs <;> simp_all

/-- Helper: when the denominator does not vanish, the reported point is
the crossing of the infinite extensions. -/
lemma intersects_snd_eq (l1 l2 : Line) (h : intersectDenominator l1 l2 ≠ 0) :
    (l1.intersects l2).2 = intersectPoint l1 l2 := by
  unfold Line.intersects
  split_ifs <;> simp_all

/-- Helper: two lines sharing their second endpoint cross exactly there
(when they cross at all). -/
lemma intersectPoint_shared_p2 (A B P : Point)
    (h : intersectDenominator ⟨A, P⟩ ⟨B, P⟩ ≠ 0) :
    intersectPoint ⟨A, P⟩ ⟨B, P⟩ = P := by
  obtain ⟨Ax, Ay⟩ := A
  obtain ⟨Bx, By⟩ := B
  obtain ⟨Px, Py⟩ := P
  unfold intersectDenominator at h
  unfold intersectPoint intersectNa intersectDenominator
  dsimp only at h ⊢
  have hnum : (By - Py) * (Ax - Bx) - (Bx - Px) * (Ay - By)
      = (Py - Ay) * (Bx - Px) - (Px - Ax) * (By - Py) := by ring
  rw [hnum, div_self h]
  simp only [Point.mk.injEq]
  constructor <;> ring

/-- Helper: two lines sharing their first endpoint cross exactly there
(when they cross at all). -/
lemma intersectPoint_shared_p1 (C D P : Point) :
    intersectPoint ⟨P, C⟩ ⟨P, D⟩ = P := by
  obtain ⟨Cx, Cy⟩ := C
  obtain ⟨Dx, Dy⟩ := D
  obtain ⟨Px, Py⟩ := P
  unfold intersectPoint intersectNa intersectDenominator
  dsimp only
  simp only [Point.mk.injEq]
  constructor <;> (rw [show Px - Px = 0 by ring]; ring_nf)

/-- Claim C7: adapting a layout to an outline equal to the bounding
rectangle of its own outline returns the layout unchanged. -/
theorem adaptLayout_identity (L : PageLayout) : adaptPageLayout L L.outline = L := by
  simp [adaptPageLayout]

/-- Claim C9: correctPageLayoutType never performs any transition other
than degrading to SINGLE_PAGE_UNCUT; in particular it never swaps the
two cut states and never promotes away from SINGLE_PAGE_UNCUT. -/
theorem correctType_only_degrades (L : PageLayout) :
    (correctPageLayoutType L).type = L.type ∨
    (correctPageLayoutType L).type = LayoutType.SINGLE_PAGE_UNCUT := by
  obtain ⟨o, t, cs⟩ := L
  cases t <;>
    simp only [correctPageLayoutType, PageLayout.setType] <;>
    split_ifs <;>
    simp

/-- Claim C5: when the rectangle is valid, the line is not null and both
border intersections exist, adaptCutter returns the segment from the
top-border crossing to the bottom-border crossing, each clamped
horizontally into the rectangle. -/
theorem projectLine_clamps (line : Line) (rect : Rect)
    (hv : rect.isValid) (hn : ¬ line.isNull)
    (hu : ((upperBorder rect).intersects line).1 ≠ IntersectType.NoIntersection)
    (hl : ((lowerBorder rect).intersects line).1 ≠ IntersectType.NoIntersection) :
    adaptCutter line rect =
      ⟨clampXInto ((upperBorder rect).intersects line).2 rect.left rect.right,
       clampXInto ((lowerBorder rect).intersects line).2 rect.left rect.right⟩ := by
  unfold adaptCutter
  rw [if_neg (by simp [hv, hn]), if_neg hu, if_neg hl]

/-- Witness for C5 at the spec instance: rectangle with left 0, top 0,
right 100, bottom 200 and a line whose top-border crossing has x = 150;
the first endpoint of the result is clamped to x = 100. -/
theorem projectLine_clamps_witness :
    (adaptCutter ⟨⟨150, 0⟩, ⟨50, 200⟩⟩ ⟨0, 0, 100, 200⟩).p1.x = 100 := by
  rw [projectLine_clamps ⟨⟨150, 0⟩, ⟨50, 200⟩⟩ ⟨0, 0, 100, 200⟩
    (of_decide_eq_true (by with_unfolding_all rfl))
    (of_decide_eq_true (by with_unfolding_all rfl))
    (of_decide_eq_true (by with_unfolding_all rfl))
    (of_decide_eq_true (by with_unfolding_all rfl))]
  with_unfolding_all rfl

/-- Claim C6: adaptCutter returns its input unchanged whenever the
rectangle is invalid, the line is null, or either border intersection
fails. -/
theorem projectLine_identity_fallback (line : Line) (rect : Rect)
    (h : ¬ rect.isValid ∨ line.isNull
      ∨ ((upperBorder rect).intersects line).1 = IntersectType.NoIntersection
      ∨ ((lowerBorder rect).intersects line).1 = IntersectType.NoIntersection) :
    adaptCutter line rect = line := by
  simp only [adaptCutter]
  split_ifs with h1 h2 h3
  · rfl
  · rfl
  · rfl
  · rcases h with h | h | h | h
    · exact absurd (Or.inl h) h1
    · exact absurd (Or.inr h) h1
    · exact absurd h h2
    · exact absurd h h3

/-- Witness for C6: a horizontal line inside a rectangle of height 100
is parallel to the top border and is returned unchanged. -/
theorem projectLine_identity_fallback_witness :
    adaptCutter ⟨⟨10, 50⟩, ⟨90, 50⟩⟩ ⟨0, 0, 100, 100⟩ = ⟨⟨10, 50⟩, ⟨90, 50⟩⟩ :=
  projectLine_identity_fallback ⟨⟨10, 50⟩, ⟨90, 50⟩⟩ ⟨0, 0, 100, 100⟩
    (of_decide_eq_true (by with_unfolding_all rfl))

/-- Helper: the classification produced by correctPageLayoutType depends
only on the old classification and the rounded outline and cutter lines. -/
lemma correctType_type_eq (L : PageLayout) :
    (correctPageLayoutType L).type =
      correctedType L.type L.outline.toRect (L.cutterLine 0).toLine (L.cutterLine 1).toLine := by
  obtain ⟨o, t, cs⟩ := L
  cases t <;>
    simp only [correctPageLayoutType, correctedType, PageLayout.setType, PageLayout.cutterLine] <;>
    split_ifs <;>
    simp_all

/-- Helper: correctPageLayoutType never touches the stored outline. -/
lemma correctType_outline_eq (L : PageLayout) :
    (correctPageLayoutType L).outline = L.outline := by
  obtain ⟨o, t, cs⟩ := L
  cases t <;>
    simp only [correctPageLayoutType, PageLayout.setType] <;>
    split_ifs <;>
    simp

/-- Helper: correctPageLayoutType never touches the stored cutter lines. -/
lemma correctType_cutterLines_eq (L : PageLayout) :
    (correctPageLayoutType L).cutterLines = L.cutterLines := by
  obtain ⟨o, t, cs⟩ := L
  cases t <;>
    simp only [correctPageLayoutType, PageLayout.setType] <;>
    split_ifs <;>
    simp

/-- Claim C3, amended: for a SINGLE_PAGE_CUT layout, correctPageLayoutType
degrades the type to SINGLE_PAGE_UNCUT exactly when, on the integer-rounded
copies of the outline and of the cutter lines, both cutters are vertical and
sit on the left or right bound, or the cutters cross at a y strictly inside
the vertical span, or they do not cross but share their first endpoint;
otherwise the type stays SINGLE_PAGE_CUT. -/
theorem correctType_single_page_cut (L : PageLayout)
    (h : L.type = LayoutType.SINGLE_PAGE_CUT) :
    (correctPageLayoutType L).type =
      if (cutterOnEdge L.outline.toRect (L.cutterLine 0).toLine
            ∧ cutterOnEdge L.outline.toRect (L.cutterLine 1).toLine)
          ∨ cuttersDegenerate L.outline.toRect (L.cutterLine 0).toLine (L.cutterLine 1).toLine then
        LayoutType.SINGLE_PAGE_UNCUT
      else LayoutType.SINGLE_PAGE_CUT := by
  rw [correctType_type_eq, h]
  unfold correctedType
  split_ifs <;> simp_all

/-- Witness for C3 at the degeneration scenario of the spec: both cutter
lines vertical on the left and right bounds of the outline. -/
theorem correctType_single_page_cut_witness :
    (correctPageLayoutType
        (PageLayout.cutPage ⟨0, 0, 100, 200⟩ ⟨⟨0, 0⟩, ⟨0, 200⟩⟩ ⟨⟨100, 0⟩, ⟨100, 200⟩⟩)).type
      = LayoutType.SINGLE_PAGE_UNCUT := by
  rw [correctType_single_page_cut _ rfl]
  with_unfolding_all rfl

/-- Counterexample to C3 as stated: with unrounded cutters at x 99.7 and
x 0.3 none of the three stated conditions holds, yet the layout is
degraded, because the source compares rounded copies. -/
theorem correctType_single_page_cut_counterexample :
    (¬ ((cutterOnEdge (⟨0, 0, 100, 200⟩ : Rect) ⟨⟨997/10, 0⟩, ⟨997/10, 200⟩⟩
          ∧ cutterOnEdge (⟨0, 0, 100, 200⟩ : Rect) ⟨⟨3/10, 0⟩, ⟨3/10, 200⟩⟩)
        ∨ cuttersDegenerate (⟨0, 0, 100, 200⟩ : Rect) ⟨⟨997/10, 0⟩, ⟨997/10, 200⟩⟩
            ⟨⟨3/10, 0⟩, ⟨3/10, 200⟩⟩))
    ∧ (correctPageLayoutType
        (PageLayout.cutPage ⟨0, 0, 100, 200⟩ ⟨⟨997/10, 0⟩, ⟨997/10, 200⟩⟩
          ⟨⟨3/10, 0⟩, ⟨3/10, 200⟩⟩)).type = LayoutType.SINGLE_PAGE_UNCUT :=
  ⟨of_decide_eq_true (by with_unfolding_all rfl), by with_unfolding_all rfl⟩

/-- Claim C4, amended: a TWO_PAGES layout degrades to SINGLE_PAGE_UNCUT
exactly when the rounded cutter is vertical on the rounded left or right
bound; and the end-to-end scenario of the spec: shrinking the outline
from width 200 to width 100 clamps the cutter at x 100 and the final
layout type is SINGLE_PAGE_UNCUT. -/
theorem correctType_two_pages :
    (∀ L : PageLayout, L.type = LayoutType.TWO_PAGES →
        ((correctPageLayoutType L).type = LayoutType.SINGLE_PAGE_UNCUT ↔
          cutterOnEdge L.outline.toRect (L.cutterLine 0).toLine))
    ∧ (adaptPageLayout (PageLayout.twoPages ⟨0, 0, 200, 300⟩ ⟨⟨150, 0⟩, ⟨150, 300⟩⟩)
          ⟨0, 0, 100, 300⟩).type = LayoutType.SINGLE_PAGE_UNCUT
    ∧ adaptCutter ⟨⟨150, 0⟩, ⟨150, 300⟩⟩ ⟨0, 0, 100, 300⟩ = ⟨⟨100, 0⟩, ⟨100, 300⟩⟩ := by
  refine ⟨?_, by with_unfolding_all rfl, by with_unfolding_all rfl⟩
  intro L h
  rw [correctType_type_eq, h]
  unfold correctedType
  split_ifs with h1 h2 <;> simp_all

/-- Witness for C4: a cutter lying exactly on the right bound degrades
the TWO_PAGES layout. -/
theorem correctType_two_pages_witness :
    (correctPageLayoutType
        (PageLayout.twoPages ⟨0, 0, 100, 300⟩ ⟨⟨100, 0⟩, ⟨100, 300⟩⟩)).type
      = LayoutType.SINGLE_PAGE_UNCUT :=
  (correctType_two_pages.1 _ rfl).mpr (of_decide_eq_true (by with_unfolding_all rfl))

/-- Counterexample to C4 as stated: an unrounded cutter at x 99.7 does not
lie on the left or right bound, yet the layout is degraded, because the
source compares rounded copies. -/
theorem correctType_two_pages_counterexample :
    (¬ cutterOnEdge (⟨0, 0, 100, 300⟩ : Rect) ⟨⟨997/10, 0⟩, ⟨997/10, 300⟩⟩)
    ∧ (correctPageLayoutType
        (PageLayout.twoPages ⟨0, 0, 100, 300⟩ ⟨⟨997/10, 0⟩, ⟨997/10, 300⟩⟩)).type
      = LayoutType.SINGLE_PAGE_UNCUT :=
  ⟨of_decide_eq_true (by with_unfolding_all rfl), by with_unfolding_all rfl⟩

/-- Claim C10: every degradation decision of correctPageLayoutType is made
on the integer-rounded copies of the outline and of the cutter lines, so
two layouts of equal classification agreeing on the rounded data receive
the same decision, while the stored outline and cutter lines keep their
unrounded values and only the type field is modified. -/
theorem correctType_rounded_decision (L1 L2 : PageLayout)
    (ht : L1.type = L2.type)
    (ho : L1.outline.toRect = L2.outline.toRect)
    (hc0 : (L1.cutterLine 0).toLine = (L2.cutterLine 0).toLine)
    (hc1 : (L1.cutterLine 1).toLine = (L2.cutterLine 1).toLine) :
    (correctPageLayoutType L1).type = (correctPageLayoutType L2).type
    ∧ (correctPageLayoutType L1).outline = L1.outline
    ∧ (correctPageLayoutType L1).cutterLines = L1.cutterLines := by
  refine ⟨?_, correctType_outline_eq L1, correctType_cutterLines_eq L1⟩
  rw [correctType_type_eq, correctType_type_eq, ht, ho, hc0, hc1]

/-- Witness for C10: a cutter at x 99.7, less than half a unit from the
right bound 100, is treated exactly like a cutter at x 100. -/
theorem correctType_rounded_decision_witness :
    (correctPageLayoutType (PageLayout.twoPages ⟨0, 0, 100, 200⟩ ⟨⟨997/10, 0⟩, ⟨997/10, 200⟩⟩)).type
        = (correctPageLayoutType (PageLayout.twoPages ⟨0, 0, 100, 200⟩ ⟨⟨100, 0⟩, ⟨100, 200⟩⟩)).type
    ∧ (correctPageLayoutType (PageLayout.twoPages ⟨0, 0, 100, 200⟩ ⟨⟨997/10, 0⟩, ⟨997/10, 200⟩⟩)).outline
        = (PageLayout.twoPages ⟨0, 0, 100, 200⟩ ⟨⟨997/10, 0⟩, ⟨997/10, 200⟩⟩).outline
    ∧ (correctPageLayoutType (PageLayout.twoPages ⟨0, 0, 100, 200⟩ ⟨⟨997/10, 0⟩, ⟨997/10, 200⟩⟩)).cutterLines
        = (PageLayout.twoPages ⟨0, 0, 100, 200⟩ ⟨⟨997/10, 0⟩, ⟨997/10, 200⟩⟩).cutterLines :=
  correctType_rounded_decision _ _ rfl (by with_unfolding_all rfl)
    (by with_unfolding_all rfl) (by with_unfolding_all rfl)

/-- Helper: sorting a two-element list. -/
lemma sortLines_pair_eq (a b : Line) :
    sortLines [a, b] = [(sortPair a b).1, (sortPair a b).2] := by
  simp only [sortLines, sortPair, List.insertionSort, List.orderedInsert]
  split_ifs <;> rfl

/-- Helper: adaptCutters on a two-line list is the conflict-fixing step
applied to the sorted pair of projections. -/
lemma adaptCutters_pair_eq (l1 l2 : Line) (rect : Rect) :
    adaptCutters [l1, l2] rect =
      resolveConflicts rect.top rect.bottom (sortedProj1 l1 l2 rect) [sortedProj2 l1 l2 rect] := by
  unfold adaptCutters sortedProj1 sortedProj2
  simp only [List.map, sortLines_pair_eq]

/-- Helper: the conflict-fixing loop keeps the element count. -/
lemma resolveConflicts_length (ub lb : ℚ) (xs : List Line) : ∀ x : Line,
    (resolveConflicts ub lb x xs).length = xs.length + 1 := by
  induction xs with
  | nil => intro x; rfl
  | cons c rest ih =>
    intro x
    simp only [resolveConflicts]
    split_ifs <;> simp [ih]

/-- Helper: the conflict-fixing loop is the identity when no adjacent
pair crosses at an interior y. -/
lemma resolveConflicts_conflict_free (ub lb : ℚ) (xs : List Line) : ∀ x : Line,
    List.Chain (fun a b => ¬ interiorCrossingY ub lb a b) x xs →
    resolveConflicts ub lb x xs = x :: xs := by
  induction xs with
  | nil => intro x _; rfl
  | cons c rest ih =>
    intro x hch
    obtain ⟨hab, hrest⟩ := List.chain_cons.mp hch
    simp only [resolveConflicts]
    by_cases hno : (x.intersects c).1 = IntersectType.NoIntersection
    · rw [if_pos hno, ih c hrest]
    · have hni : ¬ ((x.intersects c).2.y < lb ∧ (x.intersects c).2.y > ub) :=
        fun hy => hab ⟨hno, hy⟩
      rw [if_neg hno, if_neg hni, ih c hrest]

/-- Helper: the sorting pass sorts by the x of the first endpoints. -/
lemma sortLines_sorted (lines : List Line) :
    List.Sorted (fun a b : Line => a.p1.x ≤ b.p1.x) (sortLines lines) :=
  List.sorted_insertionSort _ lines

/-- Helper: the sorting pass keeps the element count. -/
lemma sortLines_length (lines : List Line) : (sortLines lines).length = lines.length :=
  (List.perm_insertionSort _ lines).length_eq

/-- Claim C8, amended: adaptCutters projects each line independently and
returns a sequence of the same length as the input; the projections are
sorted ascending by the x of their first endpoints before the conflict
fix, and whenever no adjacent pair of the sorted projections crosses at
an interior y the returned sequence itself is ascending (the conflict
fix may move first endpoints otherwise). -/
theorem projectLines_length_sorted (lines : List Line) (rect : Rect) :
    (adaptCutters lines rect).length = lines.length
    ∧ (List.Chain' (fun a b => ¬ interiorCrossing rect a b)
          (sortLines (lines.map (fun c => adaptCutter c rect))) →
        List.Sorted (fun a b : Line => a.p1.x ≤ b.p1.x) (adaptCutters lines rect)) := by
  have hlen := sortLines_length (lines.map (fun c => adaptCutter c rect))
  constructor
  · simp only [adaptCutters]
    cases hs : sortLines (lines.map (fun c => adaptCutter c rect)) with
    | nil =>
      rw [hs] at hlen
      simp only [List.length_nil, List.length_map] at hlen
      simp [← hlen]
    | cons c cs =>
      rw [hs] at hlen
      simp only [List.length_cons, List.length_map] at hlen
      simp only [resolveConflicts_length]
      omega
  · intro hch
    simp only [adaptCutters]
    cases hs : sortLines (lines.map (fun c => adaptCutter c rect)) with
    | nil => simp
    | cons c cs =>
      rw [hs] at hch
      have hsorted := sortLines_sorted (lines.map (fun c => adaptCutter c rect))
      rw [hs] at hsorted
      dsimp only
      rw [resolveConflicts_conflict_free rect.top rect.bottom cs c hch]
      exact hsorted

/-- Witness for C8 at two parallel vertical cutters. -/
theorem projectLines_length_sorted_witness :
    (adaptCutters [⟨⟨40, 0⟩, ⟨40, 100⟩⟩, ⟨⟨60, 0⟩, ⟨60, 100⟩⟩] ⟨0, 0, 100, 100⟩).length = 2
    ∧ List.Sorted (fun a b : Line => a.p1.x ≤ b.p1.x)
        (adaptCutters [⟨⟨40, 0⟩, ⟨40, 100⟩⟩, ⟨⟨60, 0⟩, ⟨60, 100⟩⟩] ⟨0, 0, 100, 100⟩) := by
  refine ⟨(projectLines_length_sorted [⟨⟨40, 0⟩, ⟨40, 100⟩⟩, ⟨⟨60, 0⟩, ⟨60, 100⟩⟩]
      ⟨0, 0, 100, 100⟩).1,
    (projectLines_length_sorted [⟨⟨40, 0⟩, ⟨40, 100⟩⟩, ⟨⟨60, 0⟩, ⟨60, 100⟩⟩]
      ⟨0, 0, 100, 100⟩).2 ?_⟩
  have hs : sortLines (List.map (fun c => adaptCutter c (⟨0, 0, 100, 100⟩ : Rect))
        [⟨⟨40, 0⟩, ⟨40, 100⟩⟩, ⟨⟨60, 0⟩, ⟨60, 100⟩⟩])
      = [⟨⟨40, 0⟩, ⟨40, 100⟩⟩, ⟨⟨60, 0⟩, ⟨60, 100⟩⟩] := by with_unfolding_all rfl
  rw [hs]
  exact List.Chain'.cons (of_decide_eq_true (by with_unfolding_all rfl))
    (List.chain'_singleton _)

/-- Counterexample to C8 as stated: on a three-line input the conflict
fix moves first endpoints after sorting, and the returned sequence has
first-endpoint x coordinates 50, 35, 35, which is not ascending. -/
theorem projectLines_sorted_counterexample :
    ¬ List.Sorted (fun a b : Line => a.p1.x ≤ b.p1.x)
      (adaptCutters [⟨⟨50, 0⟩, ⟨0, 100⟩⟩, ⟨⟨55, 0⟩, ⟨5, 100⟩⟩, ⟨⟨60, 40⟩, ⟨300, 40⟩⟩]
        ⟨0, 0, 100, 100⟩) := by
  have hs : adaptCutters [⟨⟨50, 0⟩, ⟨0, 100⟩⟩, ⟨⟨55, 0⟩, ⟨5, 100⟩⟩, ⟨⟨60, 40⟩, ⟨300, 40⟩⟩]
        (⟨0, 0, 100, 100⟩ : Rect)
      = [⟨⟨50, 0⟩, ⟨0, 100⟩⟩, ⟨⟨35, 0⟩, ⟨5, 100⟩⟩, ⟨⟨35, 0⟩, ⟨300, 40⟩⟩] := by
    with_unfolding_all rfl
  rw [hs]
  intro hsorted
  have h50 : (50 : ℚ) ≤ 35 :=
    List.rel_of_sorted_cons hsorted ⟨⟨35, 0⟩, ⟨5, 100⟩⟩ (by simp)
  norm_num at h50

/-- Claim C2: when the sorted pair of projections crosses at a y strictly
between the top and bottom bounds, both lines have their second endpoint
snapped to (crossing x, bottom) when the distance from the crossing to
the bottom is at most half the vertical span, and otherwise both lines
have their first endpoint snapped to (crossing x, top); in particular a
crossing exactly at the midpoint truncates at the bottom. -/
theorem projectLines_conflict_resolution (l1 l2 : Line) (rect : Rect)
    (hno : ((sortedProj1 l1 l2 rect).intersects (sortedProj2 l1 l2 rect)).1
      ≠ IntersectType.NoIntersection)
    (hy : ((sortedProj1 l1 l2 rect).intersects (sortedProj2 l1 l2 rect)).2.y < rect.bottom
      ∧ ((sortedProj1 l1 l2 rect).intersects (sortedProj2 l1 l2 rect)).2.y > rect.top) :
    adaptCutters [l1, l2] rect =
      if rect.bottom - ((sortedProj1 l1 l2 rect).intersects (sortedProj2 l1 l2 rect)).2.y
          ≤ (rect.bottom - rect.top) / 2 then
        [(sortedProj1 l1 l2 rect).setP2
          ⟨((sortedProj1 l1 l2 rect).intersects (sortedProj2 l1 l2 rect)).2.x, rect.bottom⟩,
         (sortedProj2 l1 l2 rect).setP2
          ⟨((sortedProj1 l1 l2 rect).intersects (sortedProj2 l1 l2 rect)).2.x, rect.bottom⟩]
      else
        [(sortedProj1 l1 l2 rect).setP1
          ⟨((sortedProj1 l1 l2 rect).intersects (sortedProj2 l1 l2 rect)).2.x, rect.top⟩,
         (sortedProj2 l1 l2 rect).setP1
          ⟨((sortedProj1 l1 l2 rect).intersects (sortedProj2 l1 l2 rect)).2.x, rect.top⟩] := by
  rw [adaptCutters_pair_eq]
  simp only [resolveConflicts]
  rw [if_neg hno, if_pos hy]

/-- Witness for C2: a crossing exactly at the vertical midpoint is
truncated at the bottom. -/
theorem projectLines_conflict_resolution_witness :
    adaptCutters [⟨⟨40, 0⟩, ⟨60, 100⟩⟩, ⟨⟨60, 0⟩, ⟨40, 100⟩⟩] ⟨0, 0, 100, 100⟩
      = [⟨⟨40, 0⟩, ⟨50, 100⟩⟩, ⟨⟨60, 0⟩, ⟨50, 100⟩⟩] := by
  rw [projectLines_conflict_resolution ⟨⟨40, 0⟩, ⟨60, 100⟩⟩ ⟨⟨60, 0⟩, ⟨40, 100⟩⟩ ⟨0, 0, 100, 100⟩
    (of_decide_eq_true (by with_unfolding_all rfl))
    (of_decide_eq_true (by with_unfolding_all rfl))]
  with_unfolding_all rfl

/-- Claim C1, amended to two-line inputs (the arity adaptPageLayout
uses): after adaptCutters on two lines, if the sorted projections
crossed at a y strictly inside the vertical span then re-testing the
output pair yields no intersection or an intersection at the top or
bottom bound, and the two output lines never cross at an interior
point.  For three or more lines a later conflict fix can modify a line
of an earlier pair and an interior crossing can survive. -/
theorem projectLines_pair_no_interior_crossing (l1 l2 : Line) (rect : Rect) :
    (interiorCrossing rect (sortedProj1 l1 l2 rect) (sortedProj2 l1 l2 rect) →
      borderOrNoIntersection rect ((adaptCutters [l1, l2] rect).getD 0 default)
        ((adaptCutters [l1, l2] rect).getD 1 default))
    ∧ ¬ interiorCrossing rect ((adaptCutters [l1, l2] rect).getD 0 default)
        ((adaptCutters [l1, l2] rect).getD 1 default) := by
  rw [adaptCutters_pair_eq]
  simp only [interiorCrossing, interiorCrossingY, borderOrNoIntersection]
  set s1 := sortedProj1 l1 l2 rect with hs1
  set s2 := sortedProj2 l1 l2 rect with hs2
  by_cases hno : (s1.intersects s2).1 = IntersectType.NoIntersection
  · simp only [resolveConflicts, if_pos hno, List.getD_cons_zero, List.getD_cons_succ]
    exact ⟨fun hc => absurd hno hc.1, fun hc => hc.1 hno⟩
  · by_cases hin : (s1.intersects s2).2.y < rect.bottom ∧ (s1.intersects s2).2.y > rect.top
    · by_cases htie : rect.bottom - (s1.intersects s2).2.y ≤ (rect.bottom - rect.top) / 2
      · simp only [resolveConflicts, if_neg hno, if_pos hin, if_pos htie, Line.setP2,
          List.getD_cons_zero, List.getD_cons_succ]
        by_cases hd : intersectDenominator ⟨s1.p1, ⟨(s1.intersects s2).2.x, rect.bottom⟩⟩
            ⟨s2.p1, ⟨(s1.intersects s2).2.x, rect.bottom⟩⟩ = 0
        · have h1 := (intersects_fst_no_iff
            (⟨s1.p1, ⟨(s1.intersects s2).2.x, rect.bottom⟩⟩ : Line)
            (⟨s2.p1, ⟨(s1.intersects s2).2.x, rect.bottom⟩⟩ : Line)).mpr hd
          exact ⟨fun _ => Or.inl h1, fun hc => hc.1 h1⟩
        · have h2 : ((Line.mk s1.p1 ⟨(s1.intersects s2).2.x, rect.bottom⟩).intersects
              ⟨s2.p1, ⟨(s1.intersects s2).2.x, rect.bottom⟩⟩).2
              = (⟨(s1.intersects s2).2.x, rect.bottom⟩ : Point) := by
            rw [intersects_snd_eq _ _ hd]
            exact intersectPoint_shared_p2 _ _ _ hd
          constructor
          · intro _
            exact Or.inr (Or.inr (by rw [h2]))
          · intro hc
            have hlt := hc.2.1
            rw [h2] at hlt
            exact absurd hlt (lt_irrefl _)
      · simp only [resolveConflicts, if_neg hno, if_pos hin, if_neg htie, Line.setP1,
          List.getD_cons_zero, List.getD_cons_succ]
        by_cases hd : intersectDenominator ⟨⟨(s1.intersects s2).2.x, rect.top⟩, s1.p2⟩
            ⟨⟨(s1.intersects s2).2.x, rect.top⟩, s2.p2⟩ = 0
        · have h1 := (intersects_fst_no_iff
            (⟨⟨(s1.intersects s2).2.x, rect.top⟩, s1.p2⟩ : Line)
            (⟨⟨(s1.intersects s2).2.x, rect.top⟩, s2.p2⟩ : Line)).mpr hd
          exact ⟨fun _ => Or.inl h1, fun hc => hc.1 h1⟩
        · have h2 : ((Line.mk ⟨(s1.intersects s2).2.x, rect.top⟩ s1.p2).intersects
              ⟨⟨(s1.intersects s2).2.x, rect.top⟩, s2.p2⟩).2
              = (⟨(s1.intersects s2).2.x, rect.top⟩ : Point) := by
            rw [intersects_snd_eq _ _ hd]
            exact intersectPoint_shared_p1 _ _ _
          constructor
          · intro _
            exact Or.inr (Or.inl (by rw [h2]))
          · intro hc
            have hgt := hc.2.2
            rw [h2] at hgt
            exact absurd hgt (lt_irrefl _)
    · simp only [resolveConflicts, if_neg hno, if_neg hin,
        List.getD_cons_zero, List.getD_cons_succ]
      exact ⟨fun hc => absurd hc.2 hin, fun hc => hin hc.2⟩

/-- Witness for C1: two projections crossing at the midpoint are snapped
to a shared bottom endpoint and re-test at the bottom bound. -/
theorem projectLines_pair_no_interior_crossing_witness :
    interiorCrossing ⟨0, 0, 100, 100⟩
        (sortedProj1 ⟨⟨40, 0⟩, ⟨60, 100⟩⟩ ⟨⟨60, 0⟩, ⟨40, 100⟩⟩ ⟨0, 0, 100, 100⟩)
        (sortedProj2 ⟨⟨40, 0⟩, ⟨60, 100⟩⟩ ⟨⟨60, 0⟩, ⟨40, 100⟩⟩ ⟨0, 0, 100, 100⟩)
    ∧ borderOrNoIntersection ⟨0, 0, 100, 100⟩
        ((adaptCutters [⟨⟨40, 0⟩, ⟨60, 100⟩⟩, ⟨⟨60, 0⟩, ⟨40, 100⟩⟩] ⟨0, 0, 100, 100⟩).getD 0
          default)
        ((adaptCutters [⟨⟨40, 0⟩, ⟨60, 100⟩⟩, ⟨⟨60, 0⟩, ⟨40, 100⟩⟩] ⟨0, 0, 100, 100⟩).getD 1
          default) :=
  ⟨of_decide_eq_true (by with_unfolding_all rfl),
   (projectLines_pair_no_interior_crossing ⟨⟨40, 0⟩, ⟨60, 100⟩⟩ ⟨⟨60, 0⟩, ⟨40, 100⟩⟩
      ⟨0, 0, 100, 100⟩).1 (of_decide_eq_true (by with_unfolding_all rfl))⟩

/-- Counterexample to C1 as stated: on a three-line input the conflict
fix of the pair at indices 1 and 2 moves the first endpoint of line 1,
and the output lines at indices 0 and 1 cross at y = 75, strictly inside
the vertical span. -/
theorem projectLines_interior_crossing_counterexample :
    interiorCrossing ⟨0, 0, 100, 100⟩
      ((adaptCutters [⟨⟨50, 0⟩, ⟨0, 100⟩⟩, ⟨⟨55, 0⟩, ⟨5, 100⟩⟩, ⟨⟨60, 40⟩, ⟨300, 40⟩⟩]
          ⟨0, 0, 100, 100⟩).getD 0 default)
      ((adaptCutters [⟨⟨50, 0⟩, ⟨0, 100⟩⟩, ⟨⟨55, 0⟩, ⟨5, 100⟩⟩, ⟨⟨60, 40⟩, ⟨300, 40⟩⟩]
          ⟨0, 0, 100, 100⟩).getD 1 default) :=
  of_decide_eq_true (by with_unfolding_all rfl)

end PageSplit
